import Mathlib

/-!
Shallow embedding of the QuickShare server (src/app.py).

The server keeps a process-wide dict `storage` mapping a short code to the
metadata of one upload, writes uploaded bytes under `/tmp/uploads/<code>/`,
writes one QR image `/tmp/uploads/<code>_qr.png` per upload, and serves
downloads as an in-memory ZIP.  We model the registry as an association list
(Python dicts preserve insertion order and replace on key reuse), the
filesystem as a list of created directories plus an association list from
path to file content, and wall-clock time as an integer passed explicitly.
Nondeterministic inputs of the handlers (the fresh uuid-prefix code, the
clock reading, whether the qrcode library raises) are explicit parameters.
-/

namespace QuickShare

/-- `UPLOAD_FOLDER` on the non-Windows branch (app.py line 20). -/
def UPLOAD_FOLDER : String := "/tmp/uploads"

/-- app.py line 27: 5 minutes validity. -/
def EXPIRATION_SECONDS : Int := 5 * 60

/-- app.py line 28. -/
def CLEANUP_INTERVAL_SECONDS : Int := 60

/-- `s` starts with `pre` (computed on the underlying character lists). -/
def strStartsWith (s pre : String) : Bool :=
  pre.data.isPrefixOf s.data

/-- `s` ends with `suf` (computed on the underlying character lists). -/
def strEndsWith (s suf : String) : Bool :=
  suf.data.reverse.isPrefixOf s.data.reverse

/-- `os.path.join` for POSIX paths: an absolute second component replaces
the first, otherwise the two are joined with a single separator. -/
def ospathjoin (a b : String) : String :=
  if strStartsWith b "/" then b
  else if strEndsWith a "/" then a ++ b
  else a ++ "/" ++ b

/-- Split a character list at every slash. -/
def splitSlash : List Char → List (List Char)
  | [] => [[]]
  | c :: rest =>
    match splitSlash rest with
    | [] => [[]]
    | cur :: more =>
      if c = '/' then [] :: cur :: more else (c :: cur) :: more

/-- Path components of `p`, empty components dropped. -/
def splitPath (p : String) : List String :=
  ((splitSlash p.data).map (fun cs => (⟨cs⟩ : String))).filter
    (fun c => c ≠ "")

/-- Resolve `.` and `..` components the way the kernel resolves a path. -/
def normComponents (cs : List String) : List String :=
  cs.foldl
    (fun acc c =>
      if c = "." then acc
      else if c = ".." then acc.dropLast
      else acc ++ [c]) []

/-- Fully resolved component list of a path string. -/
def resolvePath (p : String) : List String :=
  normComponents (splitPath p)

/-- `file`, once resolved, lies inside directory `dir`. -/
def isWithinDir (dir file : String) : Bool :=
  (resolvePath dir).isPrefixOf (resolvePath file)

/-- One metadata record of `saved_files_metadata` (app.py lines 121-125). -/
structure StoredFile where
  filename : String
  filepath : String
  filesize : Nat
deriving DecidableEq, Repr

/-- One value of the `storage` dict (app.py lines 152-158). -/
structure Entry where
  dirpath : String
  timestamp : Int
  files : List StoredFile
  content_type : String
  expires_in : Int
deriving DecidableEq, Repr

/-- The mutable server state: the `storage` dict plus the filesystem under
`UPLOAD_FOLDER` (directories created, files written with their content). -/
structure ServerState where
  storage : List (String × Entry)
  dirs : List String
  diskFiles : List (String × String)
deriving DecidableEq, Repr

/-- Dict lookup on an association list. -/
def lookupA {α : Type} (l : List (String × α)) (k : String) : Option α :=
  (l.find? (fun p => p.1 == k)).map (fun p => p.2)

/-- Dict assignment: replace the value if the key is present, else append
(Python dicts keep insertion order). -/
def insertA {α : Type} (l : List (String × α)) (k : String) (v : α) :
    List (String × α) :=
  if (l.find? (fun p => p.1 == k)).isSome then
    l.map (fun p => if p.1 == k then (k, v) else p)
  else l ++ [(k, v)]

/-- Dict deletion; a no-op when the key is absent. -/
def removeA {α : Type} (l : List (String × α)) (k : String) :
    List (String × α) :=
  l.filter (fun p => !(p.1 == k))

/-- `os.path.exists`: true for a created directory or a written file. -/
def pathExists (st : ServerState) (p : String) : Bool :=
  st.dirs.contains p || (lookupA st.diskFiles p).isSome

/-- `os.makedirs(p, exist_ok=True)`. -/
def makedirs (st : ServerState) (p : String) : ServerState :=
  if st.dirs.contains p then st else { st with dirs := st.dirs ++ [p] }

/-- Writing one file to disk. -/
def writeDisk (st : ServerState) (p content : String) : ServerState :=
  { st with diskFiles := insertA st.diskFiles p content }

/-- `shutil.rmtree(p)`: the directory and everything under it disappear. -/
def rmtree (st : ServerState) (p : String) : ServerState :=
  { st with
    dirs := st.dirs.filter
      (fun d => !(d == p) && !(strStartsWith d (p ++ "/"))),
    diskFiles := st.diskFiles.filter
      (fun f => !(f.1 == p) && !(strStartsWith f.1 (p ++ "/"))) }

/-- `os.remove(p)` for a single file. -/
def removeDiskFile (st : ServerState) (p : String) : ServerState :=
  { st with diskFiles := removeA st.diskFiles p }

/-- Python `str.strip()`: drop whitespace from both ends. -/
def pyStrip (s : String) : String :=
  ⟨((s.data.dropWhile Char.isWhitespace).reverse.dropWhile
      Char.isWhitespace).reverse⟩

/-- app.py line 134. -/
def TEXT_FILENAME : String := "quickshare_text_or_links.txt"

/-- The header the upload handler writes before the submitted text
(app.py line 137). -/
def TEXT_HEADER : String := "--- Content shared via QuickShare ---\n\n"

/-- Path of the QR artifact for `code` (app.py lines 63, 162, 200, 247). -/
def qrPath (code : String) : String :=
  ospathjoin UPLOAD_FOLDER (code ++ "_qr.png")

/-- One element of `request.files.getlist("file")`: a caller-supplied file
name and the file bytes. -/
structure FileUpload where
  filename : String
  content : String
deriving DecidableEq, Repr

/-- The JSON body of a successful upload (app.py lines 171-179). -/
structure UploadResponse where
  code : String
  download_url : String
  qr_code : Option String
  timestamp : Int
  expires_in : Int
  files : List String
deriving DecidableEq, Repr

/-- Outcome of the upload handler. -/
inductive UploadResult
  | badRequest (msg : String)
  | ok (resp : UploadResponse)
deriving DecidableEq, Repr

/-- Extract the returned share code of an upload, if it succeeded. -/
def returnedCode : UploadResult → Option String
  | .badRequest _ => none
  | .ok r => some r.code

/-- Python truthiness of `files_list and files_list[0].filename`
(app.py line 100): a non-empty list whose first file name is non-empty. -/
def hasFiles (files_list : List FileUpload) : Bool :=
  !files_list.isEmpty &&
    (match files_list with
     | [] => ""
     | f :: _ => f.filename) != ""

/-- The per-file save loop of the upload handler (app.py lines 115-125):
each file with a non-empty name is written at
`os.path.join(dir_path, filename)` and its metadata recorded in order. -/
def saveFiles (dir_path : String) (files_list : List FileUpload)
    (st : ServerState) : ServerState × List StoredFile :=
  files_list.foldl
    (fun acc f =>
      if f.filename != "" then
        let filepath := ospathjoin dir_path f.filename
        (writeDisk acc.1 filepath f.content,
         acc.2 ++ [⟨f.filename, filepath, f.content.length⟩])
      else acc)
    (st, [])

/-- The `/api/upload` handler (app.py lines 93-179).  `freshCode` is the
uuid prefix `str(uuid.uuid4())[:6]` drawn at line 104, `now` the reading of
`time.time()`, and `qrOk` whether `qrcode.make`/`save` succeeds. -/
def upload (st : ServerState) (files_list : List FileUpload)
    (links_raw : String) (freshCode : String) (now : Int) (qrOk : Bool) :
    UploadResult × ServerState :=
  let links_text := pyStrip links_raw
  if !hasFiles files_list && links_text == "" then
    (.badRequest "Please provide files or paste links/text to share.", st)
  else
    let code := freshCode
    let dir_path := ospathjoin UPLOAD_FOLDER code
    let st1 := makedirs st dir_path
    let step2 :=
      if hasFiles files_list then
        let sm := saveFiles dir_path files_list st1
        (sm.1, sm.2, "files")
      else (st1, ([] : List StoredFile), "")
    let step3 :=
      if links_text != "" then
        let ct := if step2.2.2 == "files" then "mixed" else "text"
        let text_filepath := ospathjoin dir_path TEXT_FILENAME
        let body := TEXT_HEADER ++ links_text
        (writeDisk step2.1 text_filepath body,
         step2.2.1 ++ [(⟨TEXT_FILENAME, text_filepath, body.length⟩ : StoredFile)],
         ct)
      else step2
    let entry : Entry :=
      ⟨dir_path, now, step3.2.1, step3.2.2, EXPIRATION_SECONDS⟩
    let st4 := { step3.1 with storage := insertA step3.1.storage code entry }
    let step6 :=
      if qrOk then
        (writeDisk st4 (qrPath code) ("QRIMG:" ++ code),
         some ("/qr/" ++ code))
      else (st4, (none : Option String))
    (.ok ⟨code, "/api/download?code=" ++ code, step6.2, now,
          EXPIRATION_SECONDS, step3.2.1.map (fun f => f.filename)⟩,
     step6.1)

/-- Outcome of the `/api/download` handler: a 404, the 410 expired reply,
a 500, or the ZIP named `QuickShare_<code>.zip` listing (arcname, bytes)
pairs in order. -/
inductive DownloadResult
  | notFound (msg : String)
  | gone (msg : String)
  | serverFailure (msg : String)
  | zipFile (name : String) (entries : List (String × String))
deriving DecidableEq, Repr

/-- The ZIP build loop (app.py lines 219-226): each metadata item whose
file still exists on disk is added under its original filename; missing
files are skipped. -/
def buildZipEntries (st : ServerState) (files : List StoredFile) :
    List (String × String) :=
  files.foldl
    (fun acc item =>
      match lookupA st.diskFiles item.filepath with
      | some content => acc ++ [(item.filename, content)]
      | none => acc) []

/-- The `/api/download` handler (app.py lines 184-236).  `codeOpt` is the
`code` query parameter, `now` the reading of `time.time()` at line 195. -/
def download (st : ServerState) (codeOpt : Option String) (now : Int) :
    DownloadResult × ServerState :=
  match codeOpt with
  | none => (.notFound "Invalid or expired code. Content not found.", st)
  | some code =>
    match lookupA st.storage code with
    | none => (.notFound "Invalid or expired code. Content not found.", st)
    | some data =>
      if now - data.timestamp > EXPIRATION_SECONDS then
        let st1 := if pathExists st data.dirpath then rmtree st data.dirpath
                   else st
        let st2 := if pathExists st1 (qrPath code) then
                     removeDiskFile st1 (qrPath code)
                   else st1
        let st3 := { st2 with storage := removeA st2.storage code }
        (.gone "The download link has expired. Please re-upload the content.",
         st3)
      else
        if !pathExists st data.dirpath then
          (.serverFailure
            "Content directory missing on server (server error). Please try again.",
           st)
        else
          (.zipFile ("QuickShare_" ++ code ++ ".zip")
            (buildZipEntries st data.files), st)

/-- Outcome of the `/qr/<code>` handler. -/
inductive QRResult
  | notFound (msg : String)
  | image (bytes : String)
deriving DecidableEq, Repr

/-- The `/qr/<code>` handler (app.py lines 241-250).  It consults only the
`storage` dict and the filesystem; it reads no clock. -/
def get_qr (st : ServerState) (code : String) : QRResult :=
  match lookupA st.storage code with
  | none => .notFound "QR code not found or expired."
  | some _ =>
    match lookupA st.diskFiles (qrPath code) with
    | none => .notFound "QR code file missing on server."
    | some b => .image b

/-- One primitive step of the sweep, in the order the sweep performs it. -/
inductive CleanupAction
  | removeRegistry (code : String)
  | deleteDir (path : String)
  | deleteQRFile (path : String)
deriving DecidableEq, Repr

def CleanupAction.isDeleteDir : CleanupAction → Bool
  | .deleteDir _ => true
  | _ => false

def CleanupAction.isRemoveRegistry : CleanupAction → Bool
  | .removeRegistry _ => true
  | _ => false

/-- Some `deleteDir` occurs strictly before some `removeRegistry` in the
trace (the order the spec prescribes: bytes first, metadata last). -/
def bytesBeforeMetadata : List CleanupAction → Bool
  | [] => false
  | a :: rest =>
    (a.isDeleteDir && rest.any CleanupAction.isRemoveRegistry) ||
      bytesBeforeMetadata rest

/-- The codes the sweep collects for deletion (app.py lines 48-52). -/
def expiredCodes (st : ServerState) (now : Int) : List String :=
  (st.storage.filter
    (fun p => decide (now - p.2.timestamp > EXPIRATION_SECONDS))).map
    (fun p => p.1)

/-- The ordered primitive actions of one per-code deletion of the sweep
(app.py lines 54-65): `storage.pop(code, None)` first, then, if the pop
returned data, the directory removal and the QR removal. -/
def deleteOneActions (st : ServerState) (code : String) :
    List CleanupAction :=
  match lookupA st.storage code with
  | none => [.removeRegistry code]
  | some data =>
    [.removeRegistry code]
      ++ (if pathExists st data.dirpath then [.deleteDir data.dirpath]
          else [])
      ++ (if pathExists st (qrPath code) then [.deleteQRFile (qrPath code)]
          else [])

/-- The state after one per-code deletion of the sweep. -/
def deleteOne (st : ServerState) (code : String) : ServerState :=
  match lookupA st.storage code with
  | none => st
  | some data =>
    let st1 := { st with storage := removeA st.storage code }
    let st2 := if pathExists st1 data.dirpath then rmtree st1 data.dirpath
               else st1
    if pathExists st2 (qrPath code) then removeDiskFile st2 (qrPath code)
    else st2

/-- One run of the periodic cleanup (app.py lines 45-74): collect the
expired codes, then delete each in turn. -/
def cleanup_expired_files (st : ServerState) (now : Int) : ServerState :=
  (expiredCodes st now).foldl deleteOne st

/-- The state of a freshly started server: empty registry, empty upload
folder. -/
def st0 : ServerState := ⟨[], [], []⟩

/-- The server state after one text-only upload of `"hello"` at time 0
under code `abc123`, with the QR generation succeeding. -/
def stTextUpload : ServerState := (upload st0 [] "hello" "abc123" 0 true).2

/-- The registry entry that `stTextUpload` holds under `abc123`. -/
def textEntry : Entry :=
  ⟨"/tmp/uploads/abc123", 0,
   [⟨TEXT_FILENAME, "/tmp/uploads/abc123/" ++ TEXT_FILENAME, 44⟩],
   "text", EXPIRATION_SECONDS⟩

/-- The server state after one upload of the single file `a.txt` with
content `hello` at time 0 under code `c1c1c1`. -/
def stFirstUpload : ServerState :=
  (upload st0 [⟨"a.txt", "hello"⟩] "" "c1c1c1" 0 true).2

/-- Dict lookup after an in-place update finds the new value. -/
theorem lookupA_map_update {α : Type} (l : List (String × α)) (k : String)
    (v : α) (h : (l.find? (fun p => p.1 == k)).isSome = true) :
    lookupA (l.map (fun p => if p.1 == k then (k, v) else p)) k = some v := by
  induction l with
  | nil => simp [List.find?] at h
  | cons p rest ih =>
    by_cases hp : (p.1 == k) = true
    · simp [lookupA, List.find?, hp]
    · simp only [List.find?, hp] at h
      simp only [List.map, hp, if_neg, Bool.not_eq_true]
      have := ih h
      simp [lookupA, List.find?, hp] at this ⊢
      exact this

/-- Dict lookup after appending a fresh key finds the appended value. -/
theorem lookupA_append_single {α : Type} (l : List (String × α)) (k : String)
    (v : α) (h : (l.find? (fun p => p.1 == k)).isSome = false) :
    lookupA (l ++ [(k, v)]) k = some v := by
  induction l with
  | nil => simp [lookupA, List.find?]
  | cons p rest ih =>
    by_cases hp : (p.1 == k) = true
    · simp [List.find?, hp] at h
    · simp only [List.find?, hp] at h
      have := ih h
      simp [lookupA, List.find?, hp] at this ⊢
      exact this

/-- Dict assignment followed by lookup of the same key yields the
assigned value. -/
theorem lookupA_insertA {α : Type} (l : List (String × α)) (k : String)
    (v : α) : lookupA (insertA l k v) k = some v := by
  by_cases h : (l.find? (fun p => p.1 == k)).isSome = true
  · simp only [insertA, h, if_pos]
    exact lookupA_map_update l k v h
  · have hf : (l.find? (fun p => p.1 == k)).isSome = false :=
      Bool.eq_false_iff.mpr h
    simp only [insertA, hf, Bool.false_eq_true, if_neg]
    exact lookupA_append_single l k v hf

/-- Dict deletion followed by lookup of the same key yields nothing. -/
theorem lookupA_removeA {α : Type} (l : List (String × α)) (k : String) :
    lookupA (removeA l k) k = none := by
  induction l with
  | nil => simp [removeA, lookupA]
  | cons p rest ih =>
    by_cases hp : (p.1 == k) = true
    · simp only [removeA] at ih ⊢
      simp [hp]
      exact ih
    · simp only [removeA] at ih ⊢
      simp only [List.filter, hp, Bool.not_false, lookupA, List.find?]
      simp only [lookupA] at ih
      exact ih

/-- C1 counterexample: the bytes `a.txt ↦ "hello"` are uploaded twice,
the second time 10 seconds after the first (well within the 300-second
TTL), yet the second upload returns the fresh code `c2c2c2`, not the
first upload's code `c1c1c1`, and both codes end up live in the
registry: the upload handler performs no deduplication. -/
theorem C1_counterexample :
    returnedCode (upload st0 [⟨"a.txt", "hello"⟩] "" "c1c1c1" 0 true).1 =
      some "c1c1c1" ∧
    returnedCode
        (upload stFirstUpload [⟨"a.txt", "hello"⟩] "" "c2c2c2" 10 true).1 =
      some "c2c2c2" ∧
    ((10 : Int) - 0 ≤ EXPIRATION_SECONDS) ∧
    ("c2c2c2" : String) ≠ "c1c1c1" ∧
    (lookupA (upload stFirstUpload [⟨"a.txt", "hello"⟩] "" "c2c2c2" 10
        true).2.storage "c1c1c1").isSome = true ∧
    (lookupA (upload stFirstUpload [⟨"a.txt", "hello"⟩] "" "c2c2c2" 10
        true).2.storage "c2c2c2").isSome = true := by decide

/-- C1 (amended): the upload handler never consults existing entries for
a content match: every upload with non-empty input returns exactly the
freshly generated code, whatever the prior state holds, so two uploads of
identical bytes return the same code only if the generator happens to
draw the same code; no fingerprint-to-code reverse index exists. -/
theorem C1_amended (st : ServerState) (files_list : List FileUpload)
    (links_raw code : String) (now : Int) (qrOk : Bool)
    (h : (!hasFiles files_list && (pyStrip links_raw == "")) = false) :
    returnedCode (upload st files_list links_raw code now qrOk).1 =
      some code := by
  simp only [upload, h, Bool.false_eq_true, if_neg]
  cases qrOk <;> simp [returnedCode]

/-- C1 witness: a concrete upload returns its freshly drawn code. -/
theorem C1_amended_witness :
    returnedCode (upload st0 [⟨"a.txt", "hello"⟩] "" "c9c9c9" 0 true).1 =
      some "c9c9c9" :=
  C1_amended st0 [⟨"a.txt", "hello"⟩] "" "c9c9c9" 0 true (by decide)

/-- C2 counterexample: with the entry for `abc123` created at time 0 and
still in the registry, a download at time 301 (past TTL, before any
sweep) answers 410 with the expired message, while an unknown code
answers 404 with the not-found message: the two responses differ, so the
caller can distinguish an expired code from a never-existing one. -/
theorem C2_counterexample :
    (download stTextUpload (some "abc123") 301).1 =
      DownloadResult.gone
        "The download link has expired. Please re-upload the content." ∧
    (download stTextUpload (some "zzzzzz") 301).1 =
      DownloadResult.notFound "Invalid or expired code. Content not found." ∧
    DownloadResult.gone
        "The download link has expired. Please re-upload the content." ≠
      DownloadResult.notFound
        "Invalid or expired code. Content not found." := by decide

/-- C2 (amended): unknown or never-existing codes (including codes whose
entry was already deleted) get the uniform 404 not-found reply, but a
code still present in the registry whose entry is past TTL gets a
distinct 410 expired reply: expired-but-unswept codes are
distinguishable from unknown ones. -/
theorem C2_amended (st : ServerState) (code : String) (now : Int) :
    (lookupA st.storage code = none →
      (download st (some code) now).1 =
        .notFound "Invalid or expired code. Content not found.") ∧
    (∀ e : Entry, lookupA st.storage code = some e →
      now - e.timestamp > EXPIRATION_SECONDS →
      (download st (some code) now).1 =
        .gone "The download link has expired. Please re-upload the content.") := by
  constructor
  · intro h
    simp [download, h]
  · intro e he hexp
    simp [download, he, if_pos hexp]

/-- C2 witness: both branches of the amended statement at concrete
inputs. -/
theorem C2_amended_witness :
    (download stTextUpload (some "qqqqqq") 100).1 =
      DownloadResult.notFound "Invalid or expired code. Content not found." ∧
    (download stTextUpload (some "abc123") 500).1 =
      DownloadResult.gone
        "The download link has expired. Please re-upload the content." :=
  ⟨(C2_amended stTextUpload "qqqqqq" 100).1 (by decide),
   (C2_amended stTextUpload "abc123" 500).2 textEntry (by decide) (by decide)⟩

/-- C3 counterexample: the entry for `abc123` was created at time 0, and
a download at time `0 + EXPIRATION_SECONDS` — exactly `createdAt + TTL`
— succeeds with the ZIP, because the code uses the strict comparison
`time.time() - timestamp > EXPIRATION_SECONDS`; the claim requires this
boundary access to fail. -/
theorem C3_counterexample :
    (lookupA stTextUpload.storage "abc123").map Entry.timestamp = some 0 ∧
    (download stTextUpload (some "abc123") (0 + EXPIRATION_SECONDS)).1 =
      DownloadResult.zipFile "QuickShare_abc123.zip"
        [(TEXT_FILENAME, TEXT_HEADER ++ "hello")] := by decide

/-- C3 (amended): for a stored code, download returns the expired error
at every time strictly after `createdAt + TTL`, and succeeds (returns
the ZIP) at every time at or before `createdAt + TTL`, provided the
content directory is still present; in particular an access at exactly
`createdAt + TTL` succeeds. -/
theorem C3_amended (st : ServerState) (code : String) (e : Entry)
    (now : Int) (he : lookupA st.storage code = some e) :
    (now - e.timestamp > EXPIRATION_SECONDS →
      (download st (some code) now).1 =
        .gone "The download link has expired. Please re-upload the content.") ∧
    (now - e.timestamp ≤ EXPIRATION_SECONDS →
      pathExists st e.dirpath = true →
      (download st (some code) now).1 =
        .zipFile ("QuickShare_" ++ code ++ ".zip")
          (buildZipEntries st e.files)) := by
  constructor
  · intro hexp
    simp [download, he, if_pos hexp]
  · intro hle hdir
    simp [download, he, if_neg (not_lt.mpr hle), hdir]

/-- C3 witness: the expired branch at TTL+1 and the success branch at
exactly TTL, on the concrete one-entry state. -/
theorem C3_amended_witness :
    (download stTextUpload (some "abc123") 301).1 =
      DownloadResult.gone
        "The download link has expired. Please re-upload the content." ∧
    (download stTextUpload (some "abc123") 300).1 =
      DownloadResult.zipFile "QuickShare_abc123.zip"
        (buildZipEntries stTextUpload textEntry.files) :=
  ⟨(C3_amended stTextUpload "abc123" textEntry 301 (by decide)).1 (by decide),
   (C3_amended stTextUpload "abc123" textEntry 300 (by decide)).2
     (by decide) (by decide)⟩

/-- C4 counterexample: the registry holds a live entry under `abc123`
(created at time 0, accessed here at time 50, within TTL), and an upload
whose freshly generated code happens to be the same `abc123` is accepted
without any retry: it returns `abc123` and replaces the live entry's
metadata (timestamp 0 becomes 50, the file list changes), so an upload
can overwrite an existing live entry. -/
theorem C4_counterexample :
    (lookupA stTextUpload.storage "abc123").map Entry.timestamp = some 0 ∧
    ((50 : Int) - 0 ≤ EXPIRATION_SECONDS) ∧
    returnedCode (upload stTextUpload [⟨"b.txt", "bb"⟩] "" "abc123" 50
        true).1 = some "abc123" ∧
    (lookupA (upload stTextUpload [⟨"b.txt", "bb"⟩] "" "abc123" 50
        true).2.storage "abc123").map Entry.timestamp = some 50 ∧
    (lookupA stTextUpload.storage "abc123").map
        (fun e => e.files.map StoredFile.filename) = some [TEXT_FILENAME] ∧
    (lookupA (upload stTextUpload [⟨"b.txt", "bb"⟩] "" "abc123" 50
        true).2.storage "abc123").map
        (fun e => e.files.map StoredFile.filename) = some ["b.txt"] := by
  decide

/-- C4 (amended): code generation performs no registry check and no
retry: for every state and every non-empty input, the upload stores its
entry under the supplied fresh code unconditionally — afterwards the
registry maps that code to an entry whose timestamp is this upload's
time, even if a live entry already existed under the same code (which is
thereby overwritten). -/
theorem C4_amended (st : ServerState) (files_list : List FileUpload)
    (links_raw code : String) (now : Int) (qrOk : Bool)
    (h : (!hasFiles files_list && (pyStrip links_raw == "")) = false) :
    ∃ e : Entry,
      lookupA (upload st files_list links_raw code now qrOk).2.storage
        code = some e ∧ e.timestamp = now := by
  simp only [upload, h, Bool.false_eq_true, if_neg]
  cases qrOk
  · exact ⟨_, lookupA_insertA _ _ _, rfl⟩
  · exact ⟨_, lookupA_insertA _ _ _, rfl⟩

/-- C4 witness: the amended statement applied where `abc123` is already
live, showing the overwrite concretely. -/
theorem C4_amended_witness :
    ∃ e : Entry,
      lookupA (upload stTextUpload [⟨"c.txt", "cc"⟩] "" "abc123" 60
        true).2.storage "abc123" = some e ∧ e.timestamp = 60 :=
  C4_amended stTextUpload [⟨"c.txt", "cc"⟩] "" "abc123" 60 true (by decide)

/-- C5 counterexample: the entry for `abc123` was created at time 0, so
at wall time 1000 it is far past TTL; the sweep has not run, and the QR
endpoint — which reads no clock at all — still serves the QR image
instead of an error. -/
theorem C5_counterexample :
    (lookupA stTextUpload.storage "abc123").map Entry.timestamp = some 0 ∧
    ((1000 : Int) - 0 > EXPIRATION_SECONDS) ∧
    get_qr stTextUpload "abc123" = QRResult.image "QRIMG:abc123" := by
  decide

/-- C5 (amended): the QR endpoint checks only registry presence and file
existence, never the timestamp: whenever the code is in the registry and
its QR file is on disk, the image is served — at any time, arbitrarily
far past TTL; only once the entry has been removed (by the sweep or the
lazy cleanup in download) does the endpoint answer 404. -/
theorem C5_amended (st : ServerState) (code : String) :
    (∀ (e : Entry) (b : String) (now : Int),
      lookupA st.storage code = some e →
      lookupA st.diskFiles (qrPath code) = some b →
      now - e.timestamp > EXPIRATION_SECONDS →
      get_qr st code = .image b) ∧
    (lookupA st.storage code = none →
      get_qr st code = .notFound "QR code not found or expired.") := by
  constructor
  · intro e b _ he hb _
    simp [get_qr, he, hb]
  · intro h
    simp [get_qr, h]

/-- C5 witness: both branches of the amended statement at concrete
inputs (the expired-but-present entry serves its image; the empty
registry answers 404). -/
theorem C5_amended_witness :
    get_qr stTextUpload "abc123" = QRResult.image "QRIMG:abc123" ∧
    get_qr st0 "abc123" = QRResult.notFound "QR code not found or expired." :=
  ⟨(C5_amended stTextUpload "abc123").1 textEntry "QRIMG:abc123" 1000
     (by decide) (by decide) (by decide),
   (C5_amended st0 "abc123").2 (by decide)⟩

/-- C6: the caller-supplied file name is not sanitized: uploading a
single file named `../../evil` makes the handler store its bytes at
`os.path.join("/tmp/uploads/abc123", "../../evil")`, a path that
resolves to `/tmp/evil` — outside the upload's own container directory
`/tmp/uploads/abc123` — contradicting the claim that names are
sanitized against path traversal before being used as a physical
reference. -/
theorem C6_traversal :
    (lookupA (upload st0 [⟨"../../evil", "x"⟩] "" "abc123" 0
        true).2.storage "abc123").map
        (fun e => e.files.map StoredFile.filepath) =
      some ["/tmp/uploads/abc123/../../evil"] ∧
    lookupA (upload st0 [⟨"../../evil", "x"⟩] "" "abc123" 0
        true).2.diskFiles "/tmp/uploads/abc123/../../evil" = some "x" ∧
    isWithinDir "/tmp/uploads/abc123" "/tmp/uploads/abc123/../../evil" =
      false ∧
    resolvePath "/tmp/uploads/abc123/../../evil" = ["tmp", "evil"] := by
  decide

/-- C7 counterexample: a text-only upload of `"hello"` is a single-item
share, yet the download handler returns it wrapped in a ZIP archive (no
bypass), and the item's bytes are the QuickShare header followed by the
text — not the exact submitted content. -/
theorem C7_counterexample :
    (lookupA stTextUpload.storage "abc123").map
        (fun e => e.files.length) = some 1 ∧
    (download stTextUpload (some "abc123") 10).1 =
      DownloadResult.zipFile "QuickShare_abc123.zip"
        [(TEXT_FILENAME, TEXT_HEADER ++ "hello")] ∧
    TEXT_HEADER ++ "hello" ≠ "hello" := by decide

/-- C7 (amended): a single-item text-only share is not returned
directly: for every submitted text (with non-blank content), downloading
the share within TTL returns a ZIP archive holding exactly one entry,
the synthesized text file, whose content is the fixed QuickShare header
followed by the stripped submitted text — never equal to the submitted
text itself. -/
theorem C7_amended (t : String) (now now2 : Int)
    (h : (pyStrip t == "") = false)
    (hlive : ¬(now2 - now > EXPIRATION_SECONDS)) :
    (download (upload st0 [] t "abc123" now true).2
      (some "abc123") now2).1 =
      .zipFile "QuickShare_abc123.zip"
        [(TEXT_FILENAME, TEXT_HEADER ++ pyStrip t)] ∧
    TEXT_HEADER ++ pyStrip t ≠ pyStrip t := by
  constructor
  · simp [upload, download, hasFiles, h, hlive, bne, insertA, lookupA,
      makedirs, writeDisk, pathExists, buildZipEntries, ospathjoin,
      strStartsWith, strEndsWith, qrPath, TEXT_FILENAME, UPLOAD_FOLDER,
      List.find?, st0]
  · intro hcontra
    have hl := congrArg String.length hcontra
    rw [String.length_append] at hl
    have hh : TEXT_HEADER.length = 39 := rfl
    omega

/-- C7 witness: the amended statement at the concrete text
`" hi there "`, uploaded at time 3 and downloaded at time 200. -/
theorem C7_amended_witness :
    (download (upload st0 [] " hi there " "abc123" 3 true).2
      (some "abc123") 200).1 =
      DownloadResult.zipFile "QuickShare_abc123.zip"
        [(TEXT_FILENAME, TEXT_HEADER ++ pyStrip " hi there ")] ∧
    TEXT_HEADER ++ pyStrip " hi there " ≠ pyStrip " hi there " :=
  C7_amended " hi there " 3 200 (by decide) (by decide)

/-- C8 counterexample: at sweep time 1000 the entry for `abc123` is
expired and collected; the ordered trace of its per-entry deletion is
`storage.pop` first, then the directory removal, then the QR removal —
the trace does contain a directory (bytes) deletion and a registry
removal, but no bytes deletion precedes the registry removal, so the
claimed order (bytes first, metadata last) is the opposite of what the
code does. -/
theorem C8_counterexample :
    expiredCodes stTextUpload 1000 = ["abc123"] ∧
    deleteOneActions stTextUpload "abc123" =
      [CleanupAction.removeRegistry "abc123",
       CleanupAction.deleteDir "/tmp/uploads/abc123",
       CleanupAction.deleteQRFile "/tmp/uploads/abc123_qr.png"] ∧
    (deleteOneActions stTextUpload "abc123").any
      CleanupAction.isDeleteDir = true ∧
    (deleteOneActions stTextUpload "abc123").any
      CleanupAction.isRemoveRegistry = true ∧
    bytesBeforeMetadata (deleteOneActions stTextUpload "abc123") =
      false := by decide

/-- C8 (amended): the sweep's per-entry deletion removes the registry
entry first — the very first action of every per-entry trace is
`storage.pop(code)` — and deletes the backing bytes and the QR artifact
afterwards; consequently, after the deletion the registry no longer
resolves the code (a reader sees a clean not-found, by the opposite
order to the one claimed). -/
theorem C8_amended (st : ServerState) (code : String) :
    (deleteOneActions st code).head? =
      some (CleanupAction.removeRegistry code) ∧
    lookupA (deleteOne st code).storage code = none := by
  constructor
  · cases h : lookupA st.storage code <;> simp [deleteOneActions, h]
  · cases h : lookupA st.storage code with
    | none => simp only [deleteOne, h]
    | some e =>
      simp only [deleteOne, h]
      split <;> split <;>
        simp [rmtree, removeDiskFile, lookupA_removeA]

/-- C9: an upload request that supplies neither files nor text (after
Python's `strip()` of the links field) is rejected with the 400 message
and the server state is returned unchanged: no directory is created, no
registry entry is inserted, and no QR artifact is written. -/
theorem C9_empty_input (st : ServerState) (links_raw code : String)
    (now : Int) (qrOk : Bool) (h : pyStrip links_raw = "") :
    upload st [] links_raw code now qrOk =
      (.badRequest "Please provide files or paste links/text to share.",
       st) := by
  simp [upload, hasFiles, h]

/-- C9 witness: a whitespace-only links field with no files is rejected
and the state is untouched. -/
theorem C9_empty_input_witness :
    upload st0 [] "   " "z1z1z1" 5 true =
      (UploadResult.badRequest
        "Please provide files or paste links/text to share.", st0) :=
  C9_empty_input st0 "   " "z1z1z1" 5 true (by decide)

/-- C10: if QR generation fails during an upload with non-empty input,
the upload still succeeds: both the failing-QR run and the identical
succeeding-QR run return a success response, the failing run's response
equals the succeeding run's except that `qr_code` is null, the returned
code and file list are the same, the registry contents are identical,
and the entry is stored (live, stamped with this upload's time). -/
theorem C10_qr_failure (st : ServerState) (files_list : List FileUpload)
    (links_raw code : String) (now : Int)
    (h : (!hasFiles files_list && (pyStrip links_raw == "")) = false) :
    ∃ respT respF : UploadResponse,
      (upload st files_list links_raw code now true).1 = .ok respT ∧
      (upload st files_list links_raw code now false).1 = .ok respF ∧
      respF = { respT with qr_code := none } ∧
      respT.qr_code = some ("/qr/" ++ code) ∧
      respF.code = code ∧ respF.files = respT.files ∧
      (upload st files_list links_raw code now false).2.storage =
        (upload st files_list links_raw code now true).2.storage ∧
      ∃ e : Entry,
        lookupA (upload st files_list links_raw code now false).2.storage
          code = some e ∧ e.timestamp = now := by
  simp only [upload, h, Bool.false_eq_true, if_neg]
  exact ⟨_, _, rfl, rfl, rfl, rfl, rfl, rfl, rfl, _,
    lookupA_insertA _ _ _, rfl⟩

/-- C10 witness: the statement at a concrete one-file upload. -/
theorem C10_qr_failure_witness :
    ∃ respT respF : UploadResponse,
      (upload st0 [⟨"a.txt", "hi"⟩] "" "q1q1q1" 7 true).1 = .ok respT ∧
      (upload st0 [⟨"a.txt", "hi"⟩] "" "q1q1q1" 7 false).1 = .ok respF ∧
      respF = { respT with qr_code := none } ∧
      respT.qr_code = some ("/qr/" ++ "q1q1q1") ∧
      respF.code = "q1q1q1" ∧ respF.files = respT.files ∧
      (upload st0 [⟨"a.txt", "hi"⟩] "" "q1q1q1" 7 false).2.storage =
        (upload st0 [⟨"a.txt", "hi"⟩] "" "q1q1q1" 7 true).2.storage ∧
      ∃ e : Entry,
        lookupA (upload st0 [⟨"a.txt", "hi"⟩] "" "q1q1q1" 7
          false).2.storage "q1q1q1" = some e ∧ e.timestamp = 7 :=
  C10_qr_failure st0 [⟨"a.txt", "hi"⟩] "" "q1q1q1" 7 (by decide)

end QuickShare
